import Mathlib

/-!
Shallow embedding of `godot-core/src/obj/as_object_arg.rs` (gdext), the
object-argument marshalling layer: the `ObjectArg<T>` argument view, the
`AsObjectArg<T>` conversion capability implemented for `Gd<U>`, `&Gd<U>`,
`Option<U>` and `NullArg`, and the ABI-adaptation glue (`GodotFfi`,
`ToGodot`/`FromGodot`, `GodotType`, `GodotFfiVariant`, `GodotNullableFfi`).

Raw foreign pointers are modelled as natural numbers, with `0` standing for
the null pointer. Rust functions that can panic are modelled as returning
`Outcome α`: `Outcome.panics msg` is a panic (`unreachable!` or a fatal
RTTI-check failure) and `Outcome.returns v` is a normal return of `v`.
The phantom class parameter `T` of `ObjectArg<T>` has no runtime content;
wherever the expected class matters (the RTTI check), it is passed as an
explicit `ClassName` value instead.
-/

namespace GodotCore

/-- Raw foreign object pointer value (`sys::GDExtensionObjectPtr`); the null
pointer is modelled as `0`. Pointer casts (`.cast()`) are value-preserving,
hence the identity in this model. -/
abbrev Ptr := Nat

/-- Godot class names (`meta::ClassName`), modelled as strings. -/
abbrev ClassName := String

/-- Result of running a Rust function that may panic: either the function
panics with a message (diverges, producing no value), or it returns a value. -/
inductive Outcome (α : Type) where
  | panics (msg : String)
  | returns (val : α)
  deriving DecidableEq, Repr

/-- Conversion-error values (`meta::error::ConvertError`); the claims never
inspect their content, so a string message suffices. -/
abbrev ConvertError := String

/-- Enum `godot_ffi::PtrcallType`, an argument of `from_arg_ptr` and
`move_return_ptr`; never inspected by `ObjectArg`. -/
inductive PtrcallType where
  | standard
  | virtualCall
  deriving DecidableEq, Repr

/-- Variant values (`builtin::Variant`); `ObjectArg::ffi_from_variant` never
inspects its variant argument, so an abstract singleton suffices. -/
inductive Variant where
  | nilV
  deriving DecidableEq, Repr

/-- Modelled from the spec: the external handle type `RawGd<Derived>` (only
its callers are under `src/`). Per the spec's handle capability interface it
supplies a raw foreign pointer, a null check, and the runtime class of the
pointed-to object used by the dynamic-type compatibility check. The runtime
class field is meaningful only when the pointer is non-null. -/
structure RawGd where
  object_ptr : Ptr
  runtime_class : ClassName
  deriving DecidableEq, Repr

/-- Modelled from the spec: `RawGd::is_null`, the handle's null/liveness
check on the raw pointer. -/
def RawGd.is_null (g : RawGd) : Bool :=
  g.object_ptr == 0

/-- Modelled from the spec: `RawGd::obj_sys`, the handle's raw foreign
pointer accessor. -/
def RawGd.obj_sys (g : RawGd) : Ptr :=
  g.object_ptr

/-- Modelled from the spec: `RawGd::check_rtti`, the dynamic-class
compatibility check against the class-metadata registry ("is the object's
actual class `T` or a descendant of `T`?"). The registry's subclass walk is
abstracted as the Boolean relation `compatible` (first argument: the runtime
class, second: the statically expected class); a failed check is a fatal
programming-error condition, modelled as a panic. -/
def RawGd.check_rtti (compatible : ClassName → ClassName → Bool)
    (expected : ClassName) (g : RawGd) : Outcome Unit :=
  if compatible g.runtime_class expected then
    Outcome.returns ()
  else
    Outcome.panics "from_raw_gd: dynamic class is not compatible with the declared class"

/-- Struct `ObjectArg<T>`: a non-owning view for object arguments passed to
the Godot engine. Its only runtime field is `object_ptr`; the
`PhantomData<*mut T>` marker has no runtime content, so it is omitted here. -/
structure ObjectArg where
  object_ptr : Ptr
  deriving DecidableEq, Repr

/-- Function `ObjectArg::from_raw_gd`: if the handle is non-null, run the
RTTI check (fatal on mismatch), then store the handle's raw pointer. The
statically expected class `T` (the `Derived: Inherits<T>` target) is passed
explicitly as `T`. -/
def ObjectArg.from_raw_gd (compatible : ClassName → ClassName → Bool)
    (T : ClassName) (obj : RawGd) : Outcome ObjectArg :=
  if !obj.is_null then
    match obj.check_rtti compatible T with
    | Outcome.panics msg => Outcome.panics msg
    | Outcome.returns () => Outcome.returns { object_ptr := obj.obj_sys }
  else
    Outcome.returns { object_ptr := obj.obj_sys }

/-- Function `ObjectArg::null`: construct directly with a null pointer. -/
def ObjectArg.null : ObjectArg :=
  { object_ptr := 0 }

/-- Function `ObjectArg::is_null`: pointer comparison against null. -/
def ObjectArg.is_null (v : ObjectArg) : Bool :=
  v.object_ptr == 0

/-- Impl `Clone for ObjectArg<T>`: duplicate the pointer field. -/
def ObjectArg.clone (v : ObjectArg) : ObjectArg :=
  { object_ptr := v.object_ptr }

/-- Function `GodotFfi::sys` for `ObjectArg`: the stored pointer, cast
(value-preserving) to `GDExtensionConstTypePtr`. -/
def ObjectArg.sys (v : ObjectArg) : Ptr :=
  v.object_ptr

/-- Function `GodotFfi::sys_mut` for `ObjectArg`: the stored pointer, cast
(value-preserving) to `GDExtensionTypePtr`. -/
def ObjectArg.sys_mut (v : ObjectArg) : Ptr :=
  v.object_ptr

/-- The two build-time ABI revisions distinguished by the `cfg` attributes
`before_api = "4.1"` and `since_api = "4.1"`. Exactly one of the two is
active in any given build; the choice is fixed at compile time. -/
inductive ApiLevel where
  | before41
  | since41
  deriving DecidableEq, Repr

/-- Function `GodotFfi::as_arg_ptr` for `ObjectArg`, with the compile-time
`cfg` selection modelled as the `level` parameter. In the `since_api = "4.1"`
build the result is `ptr::addr_of!(self.object_ptr)`, the address of the
pointer-holding field itself; that address is not derivable from the field's
value, so it is passed in as `fieldAddr`. -/
def ObjectArg.as_arg_ptr (v : ObjectArg) (level : ApiLevel) (fieldAddr : Ptr) : Ptr :=
  match level with
  | ApiLevel.before41 => v.sys
  | ApiLevel.since41 => fieldAddr

/-- Panic message used by every `unreachable!` arm of the inbound direction. -/
def unreachableMsg : String :=
  "ObjectArg should only be passed *to* Godot, not *from*."

/-- Function `GodotFfi::new_from_sys` for `ObjectArg`: `unreachable!`. -/
def ObjectArg.new_from_sys (_ptr : Ptr) : Outcome ObjectArg :=
  Outcome.panics unreachableMsg

/-- Function `GodotFfi::new_with_uninit` for `ObjectArg`: `unreachable!`;
the initializer closure is never invoked. -/
def ObjectArg.new_with_uninit (_init : Ptr → Unit) : Outcome ObjectArg :=
  Outcome.panics unreachableMsg

/-- Function `GodotFfi::new_with_init` for `ObjectArg`: `unreachable!`;
the initializer closure is never invoked. -/
def ObjectArg.new_with_init (_init : Ptr → Unit) : Outcome ObjectArg :=
  Outcome.panics unreachableMsg

/-- Function `GodotFfi::from_arg_ptr` for `ObjectArg`: `unreachable!`. -/
def ObjectArg.from_arg_ptr (_ptr : Ptr) (_call_type : PtrcallType) : Outcome ObjectArg :=
  Outcome.panics unreachableMsg

/-- Function `GodotFfi::move_return_ptr` for `ObjectArg`: `unreachable!`. -/
def ObjectArg.move_return_ptr (_self : ObjectArg) (_ptr : Ptr)
    (_call_type : PtrcallType) : Outcome Unit :=
  Outcome.panics unreachableMsg

/-- Function `ToGodot::to_godot` for `ObjectArg`: `(*self).clone()`. -/
def ObjectArg.to_godot (v : ObjectArg) : ObjectArg :=
  v.clone

/-- Function `ToGodot::into_godot` for `ObjectArg`: returns `self`. -/
def ObjectArg.into_godot (v : ObjectArg) : ObjectArg :=
  v

/-- Function `FromGodot::try_from_godot` for `ObjectArg`: `unreachable!`. -/
def ObjectArg.try_from_godot (_via : ObjectArg) : Outcome (Except ConvertError ObjectArg) :=
  Outcome.panics unreachableMsg

/-- Function `GodotType::to_ffi` for `ObjectArg`: `(*self).clone()`. -/
def ObjectArg.to_ffi (v : ObjectArg) : ObjectArg :=
  v.clone

/-- Function `GodotType::into_ffi` for `ObjectArg`: returns `self`. -/
def ObjectArg.into_ffi (v : ObjectArg) : ObjectArg :=
  v

/-- Function `GodotType::try_from_ffi` for `ObjectArg`: in the source the
`unreachable!` line is commented out and the body is `Ok(_ffi)`, a normal
successful return of the argument. -/
def ObjectArg.try_from_ffi (ffi : ObjectArg) : Outcome (Except ConvertError ObjectArg) :=
  Outcome.returns (Except.ok ffi)

/-- Function `GodotFfiVariant::ffi_from_variant` for `ObjectArg`:
`unreachable!`. -/
def ObjectArg.ffi_from_variant (_variant : Variant) : Outcome (Except ConvertError ObjectArg) :=
  Outcome.panics unreachableMsg

/-- Function `GodotNullableFfi::flatten_option` for `ObjectArg`:
`opt.unwrap_or_else(Self::null)`. -/
def ObjectArg.flatten_option (opt : Option ObjectArg) : ObjectArg :=
  opt.getD ObjectArg.null

/-- Function `GodotNullableFfi::is_null` for `ObjectArg`: delegates to the
inherent `ObjectArg::is_null`. -/
def ObjectArg.nullable_is_null (v : ObjectArg) : Bool :=
  v.is_null

/-- Modelled from the spec: the external owned handle `Gd<U>`, wrapping the
raw handle in its `raw` field (the source accesses `self.raw`). -/
structure Gd where
  raw : RawGd
  deriving DecidableEq, Repr

/-- Impl `AsObjectArg<T> for Gd<U>` and `&Gd<U>` (`U: Inherits<T>`): both
delegate to `ObjectArg::from_raw_gd(&self.raw)`; ownership is irrelevant to
the produced view, so one definition models both impls. -/
def Gd.as_object_arg (compatible : ClassName → ClassName → Bool)
    (T : ClassName) (g : Gd) : Outcome ObjectArg :=
  ObjectArg.from_raw_gd compatible T g.raw

/-- Impl `AsObjectArg<T> for Option<U>` (`U: AsObjectArg<T>`):
`self.as_ref().map_or_else(ObjectArg::null, AsObjectArg::as_object_arg)`.
The inner conversion for `U` is the parameter `conv`. -/
def asObjectArgOption {α : Type} (conv : α → Outcome ObjectArg) :
    Option α → Outcome ObjectArg
  | none => Outcome.returns ObjectArg.null
  | some u => conv u

/-- Struct `NullArg`: the stateless null-argument marker. -/
inductive NullArg where
  | mk
  deriving DecidableEq, Repr

/-- Impl `AsObjectArg<T> for NullArg`: always `ObjectArg::null()`; the body
consults no compatibility check and cannot panic. -/
def NullArg.as_object_arg (_self : NullArg) : Outcome ObjectArg :=
  Outcome.returns ObjectArg.null

end GodotCore

namespace GodotCore

/-- C1 counterexample: the claim says every inbound entry point, including
`GodotType::try_from_ffi`, panics and never returns a value; but
`try_from_ffi` on the null view returns normally with `Ok` of its argument. -/
theorem c1_try_from_ffi_returns :
    ObjectArg.try_from_ffi ObjectArg.null =
      Outcome.returns (Except.ok ObjectArg.null) := by
  rfl

/-- C1 (amended): of the eight inbound (foreign-to-native) entry points of
`ObjectArg<T>`, seven — `new_from_sys`, `new_with_uninit`, `new_with_init`,
`from_arg_ptr`, `move_return_ptr`, `try_from_godot`, `ffi_from_variant` —
panic immediately and unconditionally and never return a value, while
`GodotType::try_from_ffi` instead returns successfully with `Ok` of its
argument unchanged. -/
theorem c1_inbound_entry_points :
    (∀ p : Ptr, ObjectArg.new_from_sys p = Outcome.panics unreachableMsg) ∧
    (∀ f : Ptr → Unit, ObjectArg.new_with_uninit f = Outcome.panics unreachableMsg) ∧
    (∀ f : Ptr → Unit, ObjectArg.new_with_init f = Outcome.panics unreachableMsg) ∧
    (∀ (p : Ptr) (c : PtrcallType),
      ObjectArg.from_arg_ptr p c = Outcome.panics unreachableMsg) ∧
    (∀ (v : ObjectArg) (p : Ptr) (c : PtrcallType),
      ObjectArg.move_return_ptr v p c = Outcome.panics unreachableMsg) ∧
    (∀ v : ObjectArg, ObjectArg.try_from_godot v = Outcome.panics unreachableMsg) ∧
    (∀ w : Variant, ObjectArg.ffi_from_variant w = Outcome.panics unreachableMsg) ∧
    (∀ v : ObjectArg, ObjectArg.try_from_ffi v = Outcome.returns (Except.ok v)) := by
  refine ⟨?_, ?_, ?_, ?_, ?_, ?_, ?_, ?_⟩ <;> intros <;> rfl

/-- C2: for every non-null handle whose runtime class is compatible with the
expected class `T` (the `U: Inherits<T>` situation, under the handle
invariant), `from_raw_gd` returns normally, and the produced view is
non-null with exposed pointer (`sys`) equal to the handle's raw pointer. -/
theorem c2_from_raw_gd_compatible (compatible : ClassName → ClassName → Bool)
    (T : ClassName) (obj : RawGd)
    (hnn : obj.is_null = false)
    (hcomp : compatible obj.runtime_class T = true) :
    ObjectArg.from_raw_gd compatible T obj =
        Outcome.returns { object_ptr := obj.obj_sys } ∧
      (ObjectArg.mk obj.obj_sys).is_null = false ∧
      (ObjectArg.mk obj.obj_sys).sys = obj.obj_sys := by
  refine ⟨?_, ?_, rfl⟩
  · simp [ObjectArg.from_raw_gd, RawGd.check_rtti, hnn, hcomp]
  · simpa [ObjectArg.is_null, RawGd.obj_sys, RawGd.is_null] using hnn

/-- C2 witness: a concrete compatible, non-null handle. -/
theorem c2_from_raw_gd_compatible_witness :
    ObjectArg.from_raw_gd (fun c t => c == t) "Node" (RawGd.mk 5 "Node") =
        Outcome.returns { object_ptr := (RawGd.mk 5 "Node").obj_sys } ∧
      (ObjectArg.mk (RawGd.mk 5 "Node").obj_sys).is_null = false ∧
      (ObjectArg.mk (RawGd.mk 5 "Node").obj_sys).sys = (RawGd.mk 5 "Node").obj_sys :=
  c2_from_raw_gd_compatible (fun c t => c == t) "Node" (RawGd.mk 5 "Node")
    (by decide) (by decide)

/-- C3: for every handle with a null underlying pointer, `from_raw_gd`
returns the null view (whose `is_null` is `true`) for every expected class
`T` and every compatibility relation whatsoever — in particular also for a
relation that rejects everything, showing the dynamic-class check is
skipped. -/
theorem c3_from_raw_gd_null (compatible : ClassName → ClassName → Bool)
    (T : ClassName) (obj : RawGd)
    (hn : obj.is_null = true) :
    ObjectArg.from_raw_gd compatible T obj = Outcome.returns ObjectArg.null ∧
      ObjectArg.null.is_null = true := by
  have hp : obj.object_ptr = 0 := by
    simpa [RawGd.is_null] using hn
  refine ⟨?_, rfl⟩
  simp [ObjectArg.from_raw_gd, hn, RawGd.obj_sys, hp, ObjectArg.null]

/-- C3 witness: a concrete null handle, converted under a compatibility
relation that rejects every pair, still yields the null view without a
panic. -/
theorem c3_from_raw_gd_null_witness :
    ObjectArg.from_raw_gd (fun _ _ => false) "Node" (RawGd.mk 0 "Unrelated") =
        Outcome.returns ObjectArg.null ∧
      ObjectArg.null.is_null = true :=
  c3_from_raw_gd_null (fun _ _ => false) "Node" (RawGd.mk 0 "Unrelated") (by decide)

/-- C4: constructing from a non-null handle whose runtime class is not
compatible with the expected class `T` panics with the RTTI diagnostic; in
particular `from_raw_gd` never returns a view in that case. -/
theorem c4_from_raw_gd_incompatible (compatible : ClassName → ClassName → Bool)
    (T : ClassName) (obj : RawGd)
    (hnn : obj.is_null = false)
    (hcomp : compatible obj.runtime_class T = false) :
    ObjectArg.from_raw_gd compatible T obj =
        Outcome.panics "from_raw_gd: dynamic class is not compatible with the declared class" ∧
      ∀ v : ObjectArg, ObjectArg.from_raw_gd compatible T obj ≠ Outcome.returns v := by
  have h : ObjectArg.from_raw_gd compatible T obj =
      Outcome.panics "from_raw_gd: dynamic class is not compatible with the declared class" := by
    simp [ObjectArg.from_raw_gd, RawGd.check_rtti, hnn, hcomp]
  exact ⟨h, fun v hv => by simp [h] at hv⟩

/-- C4 witness: a concrete non-null handle of an unrelated runtime class. -/
theorem c4_from_raw_gd_incompatible_witness :
    ObjectArg.from_raw_gd (fun c t => c == t) "Material" (RawGd.mk 7 "Node") =
        Outcome.panics "from_raw_gd: dynamic class is not compatible with the declared class" ∧
      ∀ v : ObjectArg,
        ObjectArg.from_raw_gd (fun c t => c == t) "Material" (RawGd.mk 7 "Node") ≠
          Outcome.returns v :=
  c4_from_raw_gd_incompatible (fun c t => c == t) "Material" (RawGd.mk 7 "Node")
    (by decide) (by decide)

/-- C5: `ObjectArg.null` is a null view (`is_null = true`) whose exposed
pointer is the null pointer value, and converting the `NullArg` marker via
`as_object_arg` always returns exactly that null view, without ever
consulting a compatibility check (its definition takes none and cannot
panic). -/
theorem c5_null_and_null_arg :
    ObjectArg.null.is_null = true ∧
      ObjectArg.null.sys = 0 ∧
      ∀ n : NullArg, n.as_object_arg = Outcome.returns ObjectArg.null := by
  exact ⟨rfl, rfl, fun n => rfl⟩

/-- C6: converting `none` via the `Option` impl of `AsObjectArg` yields the
null view, and converting `some h` yields exactly the result of converting
the contained value `h` directly with the inner conversion. -/
theorem c6_option_conversion {α : Type} (conv : α → Outcome ObjectArg) (h : α) :
    asObjectArgOption conv (none : Option α) = Outcome.returns ObjectArg.null ∧
      asObjectArgOption conv (some h) = conv h := by
  exact ⟨rfl, rfl⟩

/-- C7: cloning an `ObjectArg` yields a view with identical exposed pointer
and identical null-ness; indeed `clone v = v`, and since `clone` is a pure
function of the pointer field, the source is left unchanged. -/
theorem c7_clone_identity (v : ObjectArg) :
    (v.clone).sys = v.sys ∧ (v.clone).is_null = v.is_null ∧ v.clone = v := by
  exact ⟨rfl, rfl, rfl⟩

/-- C8: `as_arg_ptr` is selected by the build-time ABI-revision
configuration (modelled as the `ApiLevel` parameter, fixed per build): in
the `before_api = "4.1"` build it returns the raw object pointer `sys()`,
and in the `since_api = "4.1"` build it returns the address of the
pointer-holding field (one extra level of indirection). -/
theorem c8_as_arg_ptr_by_api_level (v : ObjectArg) (fieldAddr : Ptr) :
    v.as_arg_ptr ApiLevel.before41 fieldAddr = v.sys ∧
      v.as_arg_ptr ApiLevel.since41 fieldAddr = fieldAddr := by
  exact ⟨rfl, rfl⟩

/-- C9: the outbound generic adapters are self-identity on the exposed
pointer and null-ness: `to_godot`, `into_godot`, `to_ffi` and `into_ffi`
each yield a view with the same `sys` and `is_null` as the input. -/
theorem c9_outbound_adapters_identity (v : ObjectArg) :
    (v.to_godot.sys = v.sys ∧ v.to_godot.is_null = v.is_null) ∧
      (v.into_godot.sys = v.sys ∧ v.into_godot.is_null = v.is_null) ∧
      (v.to_ffi.sys = v.sys ∧ v.to_ffi.is_null = v.is_null) ∧
      (v.into_ffi.sys = v.sys ∧ v.into_ffi.is_null = v.is_null) := by
  exact ⟨⟨rfl, rfl⟩, ⟨rfl, rfl⟩, ⟨rfl, rfl⟩, ⟨rfl, rfl⟩⟩

/-- C10: the `GodotNullableFfi` adapter satisfies `flatten_option none =
ObjectArg.null`, `flatten_option (some v) = v`, and its `is_null` agrees
with `ObjectArg.is_null` on every value. -/
theorem c10_nullable_ffi :
    ObjectArg.flatten_option none = ObjectArg.null ∧
      (∀ v : ObjectArg, ObjectArg.flatten_option (some v) = v) ∧
      ∀ v : ObjectArg, v.nullable_is_null = v.is_null := by
  exact ⟨rfl, fun v => rfl, fun v => rfl⟩

end GodotCore
